import Mathlib

/-!
Shallow embedding of `src/main.py` (the calendar routing workflow).

The external chat-completion model is opaque: every function of the source
that calls it is embedded as a function taking the model's schema-valid
structured output as an explicit argument.  Python floats are embedded as
rationals, the shared `events` dictionary as a finite lookup function
`String → Option Val`, and an uncaught Python exception as an explicit
outcome constructor carrying the dictionary at the moment of the raise.
-/

/-- Values that `main.py` stores in the shared `events` dictionary:
strings (`changes[i].new_value`, `name`), the `datetime` of an event
(kept abstract as its ISO text), `duration_minutes : int`, and the
`participants` list of strings. -/
inductive Val where
  | str (s : String)
  | date (d : String)
  | int (n : Int)
  | strList (l : List String)
deriving DecidableEq

/-- The shared in-memory `events` dictionary: a mapping from field name to
value, as observed by lookup. -/
def EventMap : Type := String → Option Val

/-- Python `events.update({...})`: each key of the literal is added or
overwritten, later duplicate keys winning; no key is removed. -/
def dictUpdate (m : EventMap) (kvs : List (String × Val)) : EventMap :=
  kvs.foldl (fun acc kv => fun k => if k = kv.1 then some kv.2 else acc k) m

/-- The `Literal["new_event", "modify_event", "other"]` discriminant of
`CalendarRequestType.request_type`. -/
inductive RequestType where
  | new_event
  | modify_event
  | other
deriving DecidableEq

/-- `class CalendarRequestType(BaseModel)` of `main.py`: router output with a
request type, a confidence score (an unconstrained `float` field) and detail
text. -/
structure CalendarRequestType where
  request_type : RequestType
  confidence_score : ℚ
  details : String
deriving DecidableEq

/-- `class NewEventDetails(BaseModel)` of `main.py`. -/
structure NewEventDetails where
  name : String
  date : String
  duration_minutes : Int
  participants : List String
deriving DecidableEq

/-- `class Change(BaseModel)` of `main.py`: one field/new-value pair. -/
structure Change where
  field : String
  new_value : String
deriving DecidableEq

/-- `class ModifyEventDetails(BaseModel)` of `main.py`. -/
structure ModifyEventDetails where
  event_identifier : String
  changes : List Change
  participants_to_add : Option (List String)
  participants_to_remove : Option (List String)
deriving DecidableEq

/-- `class CalendarResponse(BaseModel)` of `main.py`. -/
structure CalendarResponse where
  success : Bool
  message : String
  calendar_link : Option String
deriving DecidableEq

/-- Outcome of a Python call that mutates the shared `events` dictionary:
a normal return carrying the returned value and the dictionary afterwards,
or an uncaught exception carrying the dictionary at the moment of the
raise. -/
inductive CallResult (α : Type) where
  | ret (value : α) (events : EventMap)
  | exn (events : EventMap)

/-- The shared dictionary after the call, whether it returned or raised. -/
def CallResult.eventsAfter : CallResult α → EventMap
  | .ret _ ev => ev
  | .exn ev => ev

/-- The returned value, when the call returned. -/
def CallResult.retValue : CallResult α → Option α
  | .ret v _ => some v
  | .exn _ => none

/-- `route_calendar_request` of `main.py`: the model's validated output
`model_output` has its `details` field overwritten with the raw
`user_input` (`result.details = user_input`) before being returned. -/
def route_calendar_request (user_input : String)
    (model_output : CalendarRequestType) : CalendarRequestType :=
  { model_output with details := user_input }

/-- `handle_new_event` of `main.py`: merges the four extracted fields into
`events` via `events.update({...})` and returns a success response.
`details` is the model's validated `NewEventDetails` output. -/
def handle_new_event (description : String) (events : EventMap)
    (details : NewEventDetails) : CalendarResponse × EventMap :=
  let _ := description
  let updated := dictUpdate events
    [("name", Val.str details.name), ("date", Val.date details.date),
     ("duration_minutes", Val.int details.duration_minutes),
     ("participants", Val.strList details.participants)]
  let joined := String.intercalate ", " details.participants
  ({ success := true,
     message := s!"Created new event \x27{details.name}\x27 for {details.date} with {joined}",
     calendar_link := some s!"calendar://new?event={details.name}" },
   updated)

/-- `handle_modify_event` of `main.py`: applies
`events.update({details.changes[0].field: details.changes[0].new_value})`.
On an empty `changes` list the subscript `changes[0]` raises `IndexError`
before any mutation, so the raise carries the dictionary unchanged. -/
def handle_modify_event (description : String) (events : EventMap)
    (details : ModifyEventDetails) : CallResult CalendarResponse :=
  let _ := description
  match details.changes with
  | [] => .exn events
  | c :: _ =>
      let updated := dictUpdate events [(c.field, Val.str c.new_value)]
      .ret { success := true,
             message := s!"Modified event \x27{details.event_identifier}\x27 with the requested changes",
             calendar_link := some s!"calendar://modify?event={details.event_identifier}" }
        updated

/-- `process_calendar_request` of `main.py`: route, gate on
`confidence_score < 0.7`, dispatch on `request_type`, returning `None`
(embedded as `.ret none`) on rejection or an unsupported type.
`router_output`, `new_event_output` and `modify_event_output` are the
opaque model's schema-valid outputs for the up-to-two model calls. -/
def process_calendar_request (user_input : String) (events : EventMap)
    (router_output : CalendarRequestType) (new_event_output : NewEventDetails)
    (modify_event_output : ModifyEventDetails) :
    CallResult (Option CalendarResponse) :=
  let route_result := route_calendar_request user_input router_output
  if route_result.confidence_score < 0.7 then
    .ret none events
  else
    match route_result.request_type with
    | RequestType.new_event =>
        let r := handle_new_event route_result.details events new_event_output
        .ret (some r.1) r.2
    | RequestType.modify_event =>
        match handle_modify_event route_result.details events modify_event_output with
        | .exn ev => .exn ev
        | .ret resp ev => .ret (some resp) ev
    | RequestType.other => .ret none events

/-- The initial `events = {}` dictionary of the script. -/
def emptyEvents : EventMap := fun _ => none

/-- A dictionary holding one key, used to exercise the preservation claims. -/
def sampleEvents : EventMap :=
  fun k => if k = "name" then some (Val.str "standup") else none

/-- A sample schema-valid `NewEventDetails` model output. -/
def sampleNew : NewEventDetails :=
  { name := "Standup", date := "2026-10-13T14:00:00", duration_minutes := 30,
    participants := ["Alice", "Bob"] }

/-- A sample schema-valid `ModifyEventDetails` output with two changes. -/
def sampleModTwo : ModifyEventDetails :=
  { event_identifier := "team meeting", changes := [⟨"a", "1"⟩, ⟨"b", "2"⟩],
    participants_to_add := none, participants_to_remove := none }

/-- A sample schema-valid `ModifyEventDetails` output with no changes. -/
def sampleModNil : ModifyEventDetails :=
  { event_identifier := "team meeting", changes := [],
    participants_to_add := none, participants_to_remove := none }

theorem dictUpdate_preserves_isSome (kvs : List (String × Val)) :
    ∀ (m : EventMap) (k : String), (m k).isSome → ((dictUpdate m kvs) k).isSome := by
  induction kvs with
  | nil => intro m k h; exact h
  | cons kv rest ih =>
      intro m k h
      refine ih _ k ?_
      by_cases hk : k = kv.1 <;> simp [hk, h]

theorem dictUpdate_singleton (m : EventMap) (key : String) (v : Val) (k : String) :
    dictUpdate m [(key, v)] k = if k = key then some v else m k := rfl


/-- C1: for every route decision with `confidence_score < 0.7`,
`process_calendar_request` returns the empty result `None` with the shared
state unchanged, regardless of the decision's `request_type` and of whatever
the handler model calls would have produced (no handler is invoked). -/
theorem gate_rejects_low_confidence (u : String) (ev : EventMap)
    (ro : CalendarRequestType) (no : NewEventDetails) (mo : ModifyEventDetails)
    (h : ro.confidence_score < 0.7) :
    process_calendar_request u ev ro no mo = CallResult.ret none ev := by
  simp [process_calendar_request, route_calendar_request, h]

/-- Witness: the C1 theorem applied at a concrete half-confidence decision. -/
theorem gate_rejects_low_confidence_witness :
    ((⟨RequestType.new_event, 1/2, "model text"⟩ : CalendarRequestType).confidence_score < 0.7) ∧
    process_calendar_request "hi" emptyEvents ⟨RequestType.new_event, 1/2, "model text"⟩
      sampleNew sampleModTwo = CallResult.ret none emptyEvents :=
  ⟨by norm_num [CalendarRequestType.confidence_score],
   gate_rejects_low_confidence _ _ _ _ _ (by norm_num [CalendarRequestType.confidence_score])⟩

/-- C7: a low-confidence rejection returns (rather than raising) the empty
result, and the shared dictionary after the call is exactly the dictionary
before it: rejection performs no partial mutation. -/
theorem low_confidence_rejection_atomic (u : String) (ev : EventMap)
    (ro : CalendarRequestType) (no : NewEventDetails) (mo : ModifyEventDetails)
    (h : ro.confidence_score < 0.7) :
    (process_calendar_request u ev ro no mo).retValue = some none ∧
    (process_calendar_request u ev ro no mo).eventsAfter = ev := by
  constructor <;>
    simp [process_calendar_request, route_calendar_request, h,
      CallResult.retValue, CallResult.eventsAfter]

/-- Witness: the C7 theorem applied at the script's weather question with a
concrete low-confidence decision. -/
theorem low_confidence_rejection_atomic_witness :
    ((⟨RequestType.other, 3/10, "weather"⟩ : CalendarRequestType).confidence_score < 0.7) ∧
    (process_calendar_request "Whats the weather like today?" sampleEvents
      ⟨RequestType.other, 3/10, "weather"⟩ sampleNew sampleModTwo).retValue = some none ∧
    (process_calendar_request "Whats the weather like today?" sampleEvents
      ⟨RequestType.other, 3/10, "weather"⟩ sampleNew sampleModTwo).eventsAfter = sampleEvents :=
  ⟨by norm_num [CalendarRequestType.confidence_score],
   (low_confidence_rejection_atomic _ _ _ _ _
      (by norm_num [CalendarRequestType.confidence_score])).1,
   (low_confidence_rejection_atomic _ _ _ _ _
      (by norm_num [CalendarRequestType.confidence_score])).2⟩

/-- C4: whenever the route decision has `request_type` `"other"` (the only
unsupported type of the `Literal`), `process_calendar_request` returns `None`
and the shared dictionary is left completely unchanged, whatever the
confidence score. -/
theorem other_request_type_no_mutation (u : String) (ev : EventMap)
    (ro : CalendarRequestType) (no : NewEventDetails) (mo : ModifyEventDetails)
    (h : ro.request_type = RequestType.other) :
    process_calendar_request u ev ro no mo = CallResult.ret none ev := by
  by_cases hc : ro.confidence_score < 0.7
  · simp [process_calendar_request, route_calendar_request, hc]
  · simp [process_calendar_request, route_calendar_request, hc, h]

/-- Witness: the C4 theorem applied at a concrete high-confidence `other`
decision. -/
theorem other_request_type_no_mutation_witness :
    ((⟨RequestType.other, 9/10, "weather"⟩ : CalendarRequestType).request_type
        = RequestType.other) ∧
    process_calendar_request "Whats the weather like today?" sampleEvents
      ⟨RequestType.other, 9/10, "weather"⟩ sampleNew sampleModTwo
      = CallResult.ret none sampleEvents :=
  ⟨rfl, other_request_type_no_mutation _ _ _ _ _ rfl⟩

/-- C8: the route decision returned by `route_calendar_request` carries the
raw user input verbatim in its `details` field, independently of whatever the
external model produced for that field: two arbitrary model outputs yield the
same `details`. -/
theorem route_details_verbatim_input (u : String)
    (m1 m2 : CalendarRequestType) :
    (route_calendar_request u m1).details = u ∧
    (route_calendar_request u m1).details = (route_calendar_request u m2).details :=
  ⟨rfl, rfl⟩

/-- C6 (code bug): `route_calendar_request` imposes no bound on the model's
`confidence_score` (the `float` field is validated without range
constraints), so a schema-valid model output with score `3/2` is returned
with a confidence outside `[0,1]`, contrary to the documented
"Confidence score between 0 and 1". -/
theorem router_confidence_can_exceed_unit_interval :
    (route_calendar_request "What time is it?"
        ⟨RequestType.other, 3/2, "cleaned"⟩).confidence_score = 3/2 ∧
    ¬ ((route_calendar_request "What time is it?"
        ⟨RequestType.other, 3/2, "cleaned"⟩).confidence_score ≤ 1) := by
  refine ⟨rfl, ?_⟩
  norm_num [route_calendar_request]

/-- C3: `handle_new_event` adds or overwrites exactly the four extracted
fields `name`, `date`, `duration_minutes` and `participants` in the shared
dictionary, and every other key keeps its previous value. -/
theorem new_event_updates_exactly_four_fields (desc : String) (ev : EventMap)
    (d : NewEventDetails) :
    (handle_new_event desc ev d).2 "name" = some (Val.str d.name) ∧
    (handle_new_event desc ev d).2 "date" = some (Val.date d.date) ∧
    (handle_new_event desc ev d).2 "duration_minutes"
      = some (Val.int d.duration_minutes) ∧
    (handle_new_event desc ev d).2 "participants"
      = some (Val.strList d.participants) ∧
    ∀ k, k ∉ (["name", "date", "duration_minutes", "participants"] : List String) →
      (handle_new_event desc ev d).2 k = ev k := by
  refine ⟨rfl, rfl, rfl, rfl, ?_⟩
  intro k hk
  simp only [List.mem_cons, List.not_mem_nil, or_false, not_or] at hk
  obtain ⟨h1, h2, h3, h4⟩ := hk
  simp [handle_new_event, dictUpdate, h1, h2, h3, h4]

/-- Witness: the C3 theorem applied at a concrete extraction, read back at
the key `"name"` and at the untouched key `"location"`. -/
theorem new_event_updates_exactly_four_fields_witness :
    (handle_new_event "desc" sampleEvents sampleNew).2 "name"
      = some (Val.str "Standup") ∧
    (("location" : String)
        ∉ (["name", "date", "duration_minutes", "participants"] : List String)) ∧
    (handle_new_event "desc" sampleEvents sampleNew).2 "location"
      = sampleEvents "location" :=
  ⟨(new_event_updates_exactly_four_fields "desc" sampleEvents sampleNew).1,
   by decide,
   (new_event_updates_exactly_four_fields "desc" sampleEvents sampleNew).2.2.2.2
     "location" (by decide)⟩

theorem handle_new_event_preserves_key (desc : String) (ev : EventMap)
    (d : NewEventDetails) (k : String) (h : (ev k).isSome) :
    (((handle_new_event desc ev d).2) k).isSome :=
  dictUpdate_preserves_isSome _ ev k h

theorem handle_modify_event_preserves_key (desc : String) (ev : EventMap)
    (md : ModifyEventDetails) (k : String) (h : (ev k).isSome) :
    (((handle_modify_event desc ev md).eventsAfter) k).isSome := by
  obtain ⟨ei, chs, pa, pr⟩ := md
  cases chs with
  | nil => exact h
  | cons c rest => exact dictUpdate_preserves_isSome _ ev k h

/-- C5: across a call of `process_calendar_request` — and of each handler —
keys of the shared dictionary are only added or overwritten, never deleted:
any key present before the call is still present afterwards, whether the
call returns or raises. -/
theorem state_keys_never_deleted (u desc : String) (ev : EventMap)
    (ro : CalendarRequestType) (no : NewEventDetails) (mo : ModifyEventDetails)
    (k : String) (h : (ev k).isSome) :
    (((handle_new_event desc ev no).2) k).isSome ∧
    (((handle_modify_event desc ev mo).eventsAfter) k).isSome ∧
    (((process_calendar_request u ev ro no mo).eventsAfter) k).isSome := by
  refine ⟨handle_new_event_preserves_key desc ev no k h,
    handle_modify_event_preserves_key desc ev mo k h, ?_⟩
  obtain ⟨rt, cs, dt⟩ := ro
  by_cases hc : cs < 0.7
  · simpa [process_calendar_request, route_calendar_request, hc,
      CallResult.eventsAfter] using h
  · cases rt with
    | new_event =>
        simpa [process_calendar_request, route_calendar_request, hc,
          CallResult.eventsAfter] using
          handle_new_event_preserves_key u ev no k h
    | modify_event =>
        have hm := handle_modify_event_preserves_key u ev mo k h
        cases hres : handle_modify_event u ev mo with
        | ret r ev2 =>
            rw [hres] at hm
            simpa [process_calendar_request, route_calendar_request, hc, hres,
              CallResult.eventsAfter] using hm
        | exn ev2 =>
            rw [hres] at hm
            simpa [process_calendar_request, route_calendar_request, hc, hres,
              CallResult.eventsAfter] using hm
    | other =>
        simpa [process_calendar_request, route_calendar_request, hc,
          CallResult.eventsAfter] using h

/-- Witness: the C5 theorem applied at a dictionary holding `"name"`, with a
high-confidence modify decision. -/
theorem state_keys_never_deleted_witness :
    ((sampleEvents "name").isSome = true) ∧
    (((handle_modify_event "d" sampleEvents sampleModTwo).eventsAfter)
        "name").isSome = true ∧
    (((process_calendar_request "u" sampleEvents
        ⟨RequestType.modify_event, 1, "j"⟩ sampleNew sampleModTwo).eventsAfter)
        "name").isSome = true :=
  ⟨by decide,
   (state_keys_never_deleted "u" "d" sampleEvents
      ⟨RequestType.modify_event, 1, "j"⟩ sampleNew sampleModTwo "name"
      (by decide)).2.1,
   (state_keys_never_deleted "u" "d" sampleEvents
      ⟨RequestType.modify_event, 1, "j"⟩ sampleNew sampleModTwo "name"
      (by decide)).2.2⟩

/-- C9: `handle_modify_event` unconditionally subscripts `changes[0]`: on a
schema-valid model output with an empty `changes` list the call raises an
`IndexError` before mutating anything, and it returns normally exactly when
`changes` is non-empty. -/
theorem modify_event_requires_nonempty_changes (desc : String) (ev : EventMap)
    (md : ModifyEventDetails) :
    (md.changes = [] → handle_modify_event desc ev md = CallResult.exn ev) ∧
    (md.changes ≠ [] → (handle_modify_event desc ev md).retValue.isSome) := by
  obtain ⟨ei, chs, pa, pr⟩ := md
  cases chs with
  | nil => exact ⟨fun _ => rfl, fun hne => absurd rfl hne⟩
  | cons c rest =>
      exact ⟨fun hc => by simp at hc, fun _ => rfl⟩

/-- Witness: the C9 theorem applied at an empty and at a non-empty changes
list. -/
theorem modify_event_requires_nonempty_changes_witness :
    (sampleModNil.changes = []) ∧
    handle_modify_event "d" sampleEvents sampleModNil
      = CallResult.exn sampleEvents ∧
    (sampleModTwo.changes ≠ []) ∧
    (handle_modify_event "d" sampleEvents sampleModTwo).retValue.isSome = true :=
  ⟨rfl,
   (modify_event_requires_nonempty_changes "d" sampleEvents sampleModNil).1 rfl,
   by decide,
   (modify_event_requires_nonempty_changes "d" sampleEvents sampleModTwo).2
     (by decide)⟩

/-- C2 counterexample: a gate-passing modify request whose extracted changes
list names the two fields `"a"` and `"b"`; the code applies only
`changes[0]`, so afterwards the dictionary still has no entry at `"b"` even
though `"b"` is named with new value `"2"` — refuting the claim that every
named field is set to its new value. -/
theorem modify_overwrites_all_changes_counterexample :
    ¬ ((⟨RequestType.modify_event, 1, "j"⟩ : CalendarRequestType).confidence_score < 0.7) ∧
    (sampleModTwo.changes.map Change.field = ["a", "b"]) ∧
    (sampleModTwo.changes.map Change.new_value = ["1", "2"]) ∧
    (process_calendar_request "u" emptyEvents ⟨RequestType.modify_event, 1, "j"⟩
        sampleNew sampleModTwo).eventsAfter "a" = some (Val.str "1") ∧
    (process_calendar_request "u" emptyEvents ⟨RequestType.modify_event, 1, "j"⟩
        sampleNew sampleModTwo).eventsAfter "b" = none := by
  have hc : ¬ ((1 : ℚ) < 0.7) := by norm_num
  refine ⟨by norm_num [CalendarRequestType.confidence_score], rfl, rfl, ?_, ?_⟩ <;>
    simp [process_calendar_request, route_calendar_request, hc,
      handle_modify_event, sampleModTwo, dictUpdate, CallResult.eventsAfter,
      emptyEvents]

/-- C2 (amended): for every modify request that passes the gate and whose
extracted changes list is non-empty, the call overwrites in the shared
dictionary exactly the field named by the FIRST change, set to its new
value, and no other key of the dictionary is changed. -/
theorem modify_overwrites_first_named_change (u : String) (ev : EventMap)
    (ro : CalendarRequestType) (no : NewEventDetails) (mo : ModifyEventDetails)
    (c : Change) (rest : List Change)
    (hconf : ¬ ro.confidence_score < 0.7)
    (hty : ro.request_type = RequestType.modify_event)
    (hch : mo.changes = c :: rest) :
    (process_calendar_request u ev ro no mo).retValue.isSome ∧
    (process_calendar_request u ev ro no mo).eventsAfter c.field
      = some (Val.str c.new_value) ∧
    ∀ k, k ≠ c.field →
      (process_calendar_request u ev ro no mo).eventsAfter k = ev k := by
  obtain ⟨rt, cs, dt⟩ := ro
  obtain ⟨ei, chs, pa, pr⟩ := mo
  simp only at hconf hty hch
  subst hty
  subst hch
  refine ⟨?_, ?_, ?_⟩
  · simp [process_calendar_request, route_calendar_request, hconf,
      handle_modify_event, CallResult.retValue]
  · simp [process_calendar_request, route_calendar_request, hconf,
      handle_modify_event, dictUpdate, CallResult.eventsAfter]
  · intro k hk
    simp [process_calendar_request, route_calendar_request, hconf,
      handle_modify_event, dictUpdate, CallResult.eventsAfter, hk]

/-- Witness: the amended C2 theorem applied at a concrete two-change modify
request, read back at the first named field and at an untouched key. -/
theorem modify_overwrites_first_named_change_witness :
    ¬ ((⟨RequestType.modify_event, 1, "j"⟩ : CalendarRequestType).confidence_score < 0.7) ∧
    (process_calendar_request "u" sampleEvents ⟨RequestType.modify_event, 1, "j"⟩
        sampleNew sampleModTwo).eventsAfter "a" = some (Val.str "1") ∧
    (process_calendar_request "u" sampleEvents ⟨RequestType.modify_event, 1, "j"⟩
        sampleNew sampleModTwo).eventsAfter "name" = sampleEvents "name" :=
  ⟨by norm_num [CalendarRequestType.confidence_score],
   (modify_overwrites_first_named_change "u" sampleEvents
      ⟨RequestType.modify_event, 1, "j"⟩ sampleNew sampleModTwo
      ⟨"a", "1"⟩ [⟨"b", "2"⟩]
      (by norm_num [CalendarRequestType.confidence_score]) rfl rfl).2.1,
   (modify_overwrites_first_named_change "u" sampleEvents
      ⟨RequestType.modify_event, 1, "j"⟩ sampleNew sampleModTwo
      ⟨"a", "1"⟩ [⟨"b", "2"⟩]
      (by norm_num [CalendarRequestType.confidence_score]) rfl rfl).2.2
     "name" (by decide)⟩

/-- C10: both handlers construct only success responses, so every non-`None`
`CalendarResponse` returned by `process_calendar_request` has
`success = True` and a non-`None` `calendar_link`. -/
theorem returned_response_reports_success (u : String) (ev : EventMap)
    (ro : CalendarRequestType) (no : NewEventDetails) (mo : ModifyEventDetails)
    (r : CalendarResponse)
    (h : (process_calendar_request u ev ro no mo).retValue = some (some r)) :
    r.success = true ∧ r.calendar_link.isSome := by
  obtain ⟨rt, cs, dt⟩ := ro
  by_cases hc : cs < 0.7
  · simp [process_calendar_request, route_calendar_request, hc,
      CallResult.retValue] at h
  · cases rt with
    | new_event =>
        simp [process_calendar_request, route_calendar_request, hc,
          handle_new_event, CallResult.retValue] at h
        subst h
        exact ⟨rfl, rfl⟩
    | modify_event =>
        obtain ⟨ei, chs, pa, pr⟩ := mo
        cases chs with
        | nil =>
            simp [process_calendar_request, route_calendar_request, hc,
              handle_modify_event, CallResult.retValue] at h
        | cons c rest =>
            simp [process_calendar_request, route_calendar_request, hc,
              handle_modify_event, CallResult.retValue] at h
            subst h
            exact ⟨rfl, rfl⟩
    | other =>
        simp [process_calendar_request, route_calendar_request, hc,
          CallResult.retValue] at h

/-- The concrete response produced by a high-confidence new-event run on the
sample extraction, spelled out field by field. -/
def sampleResponse : CalendarResponse :=
  { success := true,
    message := "Created new event \x27Standup\x27 for 2026-10-13T14:00:00 with Alice, Bob",
    calendar_link := some "calendar://new?event=Standup" }

/-- Witness: the C10 theorem applied to the concrete response of a
high-confidence new-event run. -/
theorem returned_response_reports_success_witness :
    sampleResponse.success = true ∧ sampleResponse.calendar_link.isSome :=
  returned_response_reports_success "u" emptyEvents
    ⟨RequestType.new_event, 1, "j"⟩ sampleNew sampleModTwo sampleResponse
    (by
      have hc : ¬ ((1 : ℚ) < 0.7) := by norm_num
      simp [process_calendar_request, route_calendar_request, hc,
        handle_new_event, CallResult.retValue, sampleNew, emptyEvents,
        sampleResponse]
      decide)
